import Mathlib

/-!
# Netflix-VerifyBot: verification of the email-polling loop

Shallow embedding of the repository's email-processing logic.  The repo
contains two near-identical implementations of the same bot:

* `src/main.py` — the script version (`check_emails`, inline dispatch with
  independent `if` blocks, `establish_connection_and_check_emails`, and the
  retry loop in `main()`);
* `src/app.py` + `src/email_handler.py` — the refactored version
  (`EmailHandler._process_email` with `elif`-chained dispatch and a
  deduplication set, `NetflixVerifyBot._run_main_loop`).

Both are embedded here.  Network, browser and mailbox effects are modelled
as explicit oracle inputs (`BrowserOracle`, `Scrapers`, move results as
`Except String Unit`); each model function returns the list of observable
actions the Python code would perform, in order.
-/

namespace VerifyBot

/-! ## String primitives

Python's `pat in s`, `s.find(pat)`, `s.find(c, start)`, `s[a:b]` and
`s.lower()`, over `List Char` / `String`. -/

/-- `leadsWith pat xs` is true when `pat` occurs at the very start of `xs`
(the anchored comparison used at each offset of the substring scan). -/
def leadsWith : List Char → List Char → Bool
  | [], _ => true
  | _ :: _, [] => false
  | p :: ps, x :: xs => p == x && leadsWith ps xs

/-- First index at which `pat` occurs in `xs` (Python `s.find(pat)`, with
`none` for Python's `-1`). -/
def findSub : List Char → List Char → Option Nat
  | [], pat => if leadsWith pat [] then some 0 else none
  | x :: rest, pat =>
    if leadsWith pat (x :: rest) then some 0
    else (findSub rest pat).map (· + 1)

/-- Python `pat in s` on strings. -/
def strContains (s pat : String) : Bool :=
  (findSub s.toList pat.toList).isSome

/-- Python `s.find(c, start)`: first index `≥ start` holding character `c`. -/
def findCharFrom (xs : List Char) (c : Char) (start : Nat) : Option Nat :=
  ((xs.drop start).findIdx? (· == c)).map (· + start)

/-- Python `s.lower()` (ASCII case folding suffices for the error texts
compared in the source). -/
def lowerStr (s : String) : String :=
  String.mk (s.toList.map Char.toLower)

/-! ## Data model -/

/-- One fetched IMAP message, as the fields the source reads off
`imap_tools.MailMessage`: `uid` (a string in imap_tools), presence of
`date` plus its value as seconds, `subject`, `flags`, `html` and `text`. -/
structure MailMessage where
  uid : String
  hasDate : Bool
  dateSeconds : Int
  subject : String
  flags : List String
  html : String
  text : String
deriving DecidableEq

/-- Python `html = msg.html or msg.text` (empty string is falsy). -/
def bodyOf (m : MailMessage) : String :=
  if m.html = "" then m.text else m.html

/-! ## Constants of `src/main.py` -/

def GELESEN_FOLDER : String := "Gelesen"
def CHECK_INTERVAL : Nat := 1
def MINUTES_TO_WAIT : Int := 900
def MAX_RETRY_ATTEMPTS : Nat := 3
def CONNECTION_REFRESH_INTERVAL : Nat := 3600

/-! ## URL extraction (`EmailHandler._extract_netflix_url`)

`start = html.find(base_url); if start == -1: None;
 end = html.find('"', start); if end == -1: None; html[start:end]`. -/

def extractNetflixUrl (html baseUrl : String) : Option String :=
  match findSub html.toList baseUrl.toList with
  | none => none
  | some start =>
    match findCharFrom html.toList '"' start with
    | none => none
    | some stop => some (String.mk ((html.toList.drop start).take (stop - start)))

/-! ## `EmailHandler` embedding (`src/email_handler.py`) -/

/-- Message fingerprint used for deduplication
(`f"{msg.uid}_{msg.date}_{msg.subject}" if msg.uid and msg.date and
msg.subject else str(msg.uid)`; Python truthiness of the three fields). -/
def emailId (m : MailMessage) : String :=
  if m.uid ≠ "" ∧ m.hasDate = true ∧ m.subject ≠ "" then
    m.uid ++ "_" ++ toString m.dateSeconds ++ "_" ++ m.subject
  else m.uid

/-- `EmailHandler._should_move_old_email`: message has a date, is older than
`app_config.minutes_to_wait` seconds, and carries the `\Seen` flag
(`msg.flags and '\\Seen' in msg.flags`, flags truthy = non-empty list). -/
def shouldMoveOldEmail (minutesToWait : Int) (now : Int) (m : MailMessage) : Bool :=
  if m.hasDate = false then false
  else
    decide (now - m.dateSeconds > minutesToWait)
      && !m.flags.isEmpty && m.flags.contains "\\Seen"

/-- Outcome recorded by `EmailHandler._move_email_to_gelesen` for one call:
which log path ran and whether `_log_email_moved` was told `success`. -/
inductive MoveLog
  /-- `mailbox.move` returned: `log_info` + success log. -/
  | movedOk
  /-- `mailbox.move` raised with "already moved"/"not found" in the lowered
  text: `log_debug` + success log. -/
  | alreadyGoneOk
  /-- any other exception from `mailbox.move`: `log_error` + failure log. -/
  | moveFailed
  /-- `self.is_connected()` was false: `log_error` + failure log, no move
  attempted. -/
  | notConnected
deriving DecidableEq

/-- Whether `_log_email_moved` was called with `success=True`. -/
def MoveLog.successStatus : MoveLog → Bool
  | .movedOk => true
  | .alreadyGoneOk => true
  | .moveFailed => false
  | .notConnected => false

/-- `EmailHandler._move_email_to_gelesen`, with the underlying
`mailbox.move` outcome supplied as `moveRes`.  The Python function catches
every exception, so it is total: it returns a `MoveLog`, never raises. -/
def moveEmailToGelesen (connected : Bool) (moveRes : Except String Unit) : MoveLog :=
  if connected = false then .notConnected
  else
    match moveRes with
    | .ok _ => .movedOk
    | .error e =>
      let m := lowerStr e
      if strContains m "already moved" || strContains m "not found" then .alreadyGoneOk
      else .moveFailed

/-- Outcomes of the two browser-scraper calls
(`WebScrapingManager.process_verification_link` returns a code or `None`,
`process_confirmation_link` returns a `bool`; both catch `WebScrapingError`
internally, so a `Bool` outcome is the full interface). -/
structure Scrapers where
  travelCode : Bool
  confirmOk : Bool
deriving DecidableEq

/-- Observable action of the handler on one message. -/
inductive HAction
  /-- `_move_email_to_gelesen(msg, reason)` was called and produced `log`. -/
  | move (uid : String) (reason : String) (log : MoveLog)
  /-- a "Found Netflix link" log for the given marker's URL. -/
  | foundLink (marker : String)
  /-- a browser interaction was delegated (travel code scrape / location
  confirmation click). -/
  | browse (kind : String)
deriving DecidableEq

/-- `EmailHandler._process_account_access_email`: extract the URL (early
`return` when absent), log, try the code regex (affects logging only), then
always archive with reason "Netflix account access email processed". -/
def processAccountAccessEmail (connected : Bool) (moveRes : Except String Unit)
    (uid : String) (html : String) : List HAction :=
  match extractNetflixUrl html "https://www.netflix.com/accountaccess" with
  | none => []
  | some _ =>
    [.foundLink "accountaccess",
     .move uid "Netflix account access email processed" (moveEmailToGelesen connected moveRes)]

/-- `EmailHandler._process_travel_verify_email`: extract the URL (early
`return` when absent), scrape a code via the browser, then archive in BOTH
outcomes — reason "Netflix travel verification code extracted" on success,
"Netflix travel verification email processed (no code found)" otherwise. -/
def processTravelVerifyEmail (connected : Bool) (scr : Scrapers)
    (moveRes : Except String Unit) (uid : String) (html : String) : List HAction :=
  match extractNetflixUrl html "https://www.netflix.com/account/travel/verify" with
  | none => []
  | some _ =>
    if scr.travelCode then
      [.foundLink "travel/verify", .browse "travel",
       .move uid "Netflix travel verification code extracted"
         (moveEmailToGelesen connected moveRes)]
    else
      [.foundLink "travel/verify", .browse "travel",
       .move uid "Netflix travel verification email processed (no code found)"
         (moveEmailToGelesen connected moveRes)]

/-- `EmailHandler._process_update_location_email`: extract the URL (early
`return` when absent), click the confirmation via the browser, then archive
in BOTH outcomes — reason "Netflix update location confirmation clicked" on
success, "Netflix update location email processed (confirmation failed)"
(after a warning log) otherwise. -/
def processUpdateLocationEmail (connected : Bool) (scr : Scrapers)
    (moveRes : Except String Unit) (uid : String) (html : String) : List HAction :=
  match extractNetflixUrl html "https://www.netflix.com/account/update-primary-location" with
  | none => []
  | some _ =>
    if scr.confirmOk then
      [.foundLink "update-primary-location", .browse "confirm",
       .move uid "Netflix update location confirmation clicked"
         (moveEmailToGelesen connected moveRes)]
    else
      [.foundLink "update-primary-location", .browse "confirm",
       .move uid "Netflix update location email processed (confirmation failed)"
         (moveEmailToGelesen connected moveRes)]

/-- `EmailHandler._process_email`: dedup check first, then the age-and-read
rule, then the `elif`-chained marker dispatch; the fingerprint is added to
`self._processed_emails` after the branch returns (the branch functions here
are pure, matching the Python branches whose scraper/move failures are
returned, not raised).  Result: updated processed set and action trace. -/
def processEmail (minutesToWait : Int) (connected : Bool) (now : Int)
    (scr : Scrapers) (moveRes : Except String Unit)
    (processed : List String) (msg : MailMessage) : List String × List HAction :=
  if processed.contains (emailId msg) then (processed, [])
  else if shouldMoveOldEmail minutesToWait now msg then
    (emailId msg :: processed,
     [.move msg.uid "Email older than 15 minutes AND read"
        (moveEmailToGelesen connected moveRes)])
  else if strContains (bodyOf msg) "accountaccess" then
    (emailId msg :: processed,
     processAccountAccessEmail connected moveRes msg.uid (bodyOf msg))
  else if strContains (bodyOf msg) "travel/verify" then
    (emailId msg :: processed,
     processTravelVerifyEmail connected scr moveRes msg.uid (bodyOf msg))
  else if strContains (bodyOf msg) "update-primary-location" then
    (emailId msg :: processed,
     processUpdateLocationEmail connected scr moveRes msg.uid (bodyOf msg))
  else (processed, [])

/-! ## `check_emails` embedding (`src/main.py`, lines 154–243)

The script version of the same dispatch.  Its three marker rules are
INDEPENDENT `if` blocks (not `elif`), there is no deduplication set, and
`mailbox.move` is called bare.  The model covers cycles in which mailbox and
browser calls return (an exception would be caught by the per-message
handler, aborting only the rest of that message's branches). -/

/-- Outcomes of `click_verification_code_link` (truthy code or `False`) and
`click_confirmation_link` (`True` / `False`) in `src/main.py`. -/
structure BrowserOracle where
  travelCodeOk : Bool
  confirmOk : Bool
deriving DecidableEq

/-- Observable action of `check_emails` on one message. -/
inductive MAction
  /-- `mailbox.move(msg.uid, folder)` was called. -/
  | move (uid : String) (folder : String)
  /-- a "Found Netflix link" broadcast for the given marker. -/
  | foundLink (marker : String)
  /-- a browser interaction was started for the given marker. -/
  | browse (kind : String)
deriving DecidableEq

/-- The inline age-and-read test of `check_emails` (`if msg.date:` then
`time_diff.total_seconds() > MINUTES_TO_WAIT and msg.flags and "\\Seen" in
msg.flags`), flattened to one boolean. -/
def mainAgeRule (now : Int) (m : MailMessage) : Bool :=
  m.hasDate && decide (now - m.dateSeconds > MINUTES_TO_WAIT)
    && !m.flags.isEmpty && m.flags.contains "\\Seen"

/-- The `"accountaccess" in html` block of `check_emails`: log the link,
regex the code (logging only), then always `mailbox.move`. -/
def mainAccountBranch (uid : String) (html : String) : List MAction :=
  if strContains html "accountaccess" then
    [.foundLink "accountaccess", .move uid GELESEN_FOLDER]
  else []

/-- The `"travel/verify" in html` block of `check_emails`: log the link,
click via the browser, and `mailbox.move` ONLY when a code came back. -/
def mainTravelBranch (o : BrowserOracle) (uid : String) (html : String) : List MAction :=
  if strContains html "travel/verify" then
    [.foundLink "travel/verify", .browse "travel"]
      ++ (if o.travelCodeOk then [.move uid GELESEN_FOLDER] else [])
  else []

/-- The `"update-primary-location" in html` block of `check_emails`: log the
link, click via the browser, `mailbox.move` ONLY on success; on failure a
warning is broadcast and the message stays. -/
def mainUpdateBranch (o : BrowserOracle) (uid : String) (html : String) : List MAction :=
  if strContains html "update-primary-location" then
    [.foundLink "update-primary-location", .browse "confirm"]
      ++ (if o.confirmOk then [.move uid GELESEN_FOLDER] else [])
  else []

/-- One message's pass through `check_emails`: the age rule `continue`s
(skipping everything else), otherwise ALL THREE marker blocks run in order,
each firing independently when its substring matches. -/
def mainDispatch (now : Int) (o : BrowserOracle) (msg : MailMessage) : List MAction :=
  let html := bodyOf msg
  if mainAgeRule now msg then
    [.move msg.uid GELESEN_FOLDER]
  else
    mainAccountBranch msg.uid html
      ++ mainTravelBranch o msg.uid html
      ++ mainUpdateBranch o msg.uid html

/-! ## Session inner loop (`establish_connection_and_check_emails`,
`src/main.py` lines 317–365)

After a successful login the inner `while True` runs cycles: a due
connection refresh breaks out; otherwise `check_emails` runs and the loop
sleeps `CHECK_INTERVAL`; ANY exception from the cycle is caught, logged
(with phrasing chosen by a keyword test on the lowered text), slept on once,
and then the loop breaks — so the function returns normally to `main()`.
It raises only when the login itself fails (line 324, outside the `try`). -/

deriving instance DecidableEq for Except

/-- Input to one inner-loop cycle: whether the connection-refresh threshold
is reached, and what `check_emails` does (returns or raises with a text). -/
structure CycleInput where
  refreshDue : Bool
  poll : Except String Unit
deriving DecidableEq

/-- Observable event of the inner session loop. -/
inductive SessEvent
  /-- refresh threshold reached: broadcast and `break` to reconnect. -/
  | refreshBreak
  /-- `check_emails` returned. -/
  | pollOk
  /-- an `await asyncio.sleep(CHECK_INTERVAL)`. -/
  | sleepInterval
  /-- exception logged as "SSL/TLS connection error detected". -/
  | connErrorLog
  /-- exception logged as "Error in check_emails". -/
  | otherErrorLog
  /-- the `break` ending the session after an exception. -/
  | errorBreak
deriving DecidableEq

/-- The keyword test choosing the error-log phrasing
(`any(keyword in error_msg for keyword in ['ssl','tls','connection','eof','closed'])`
on the lowered text). -/
def isConnKeyword (e : String) : Bool :=
  let m := lowerStr e
  strContains m "ssl" || strContains m "tls" || strContains m "connection"
    || strContains m "eof" || strContains m "closed"

/-- How a session attempt ends as seen by the outer retry loop. -/
inductive SessionOutcome
  /-- the coroutine returned normally. -/
  | ok
  /-- the coroutine raised (connection/login failure). -/
  | exc
deriving DecidableEq

/-- The inner `while True` over a finite window of cycle inputs (an empty
remainder models observing the still-running loop up to that point). -/
def innerLoop : List CycleInput → List SessEvent
  | [] => []
  | c :: rest =>
    if c.refreshDue then [.refreshBreak]
    else
      match c.poll with
      | .ok _ => .pollOk :: .sleepInterval :: innerLoop rest
      | .error e =>
        [(if isConnKeyword e then .connErrorLog else .otherErrorLog),
         .sleepInterval, .errorBreak]

/-- `establish_connection_and_check_emails`: login failure raises to
`main()`; otherwise the inner loop runs and the function returns normally —
including after a poll exception, which only breaks the inner loop. -/
def establishSession (loginOk : Bool) (cycles : List CycleInput) :
    SessionOutcome × List SessEvent :=
  if loginOk then (.ok, innerLoop cycles) else (.exc, [])

/-! ## Outer retry loops

`main()` in `src/main.py` (lines 406–442) and
`NetflixVerifyBot._run_main_loop` in `src/app.py` (lines 92–118).  Both
loop `while retry_count < max_retry_attempts`; on an exception they
increment the counter, log the attempt, and either exit the process with
status 0 (counter reached the maximum) or sleep
`check_interval * 2 ** (retry_count - 1)`.  They differ on a session that
returns normally: `app.py` line 98 resets the counter to 0, while `main.py`
line 412 has only the comment "reset retry count" and NO assignment. -/

/-- Observable event of one outer-loop iteration. -/
inductive RunEvent
  /-- the "Failed to connect (attempt k/max)" error log. -/
  | attemptFail (k : Nat)
  /-- an `await asyncio.sleep(wait)` between retries. -/
  | backoff (wait : Nat)
  /-- `sys.exit(0)`. -/
  | exitZero
deriving DecidableEq

/-- One iteration of `main()`'s retry loop in `src/main.py`: on `.ok` the
counter is left UNCHANGED (the reset exists only as a comment); on `.exc`
it increments, and the loop exits with status 0 or backs off. -/
def mainLoopStep (checkInterval maxRetry retry : Nat) :
    SessionOutcome → Nat × List RunEvent
  | .ok => (retry, [])
  | .exc =>
    let r := retry + 1
    if maxRetry ≤ r then (r, [.attemptFail r, .exitZero])
    else (r, [.attemptFail r, .backoff (checkInterval * 2 ^ (r - 1))])

/-- One iteration of `NetflixVerifyBot._run_main_loop` in `src/app.py`: on
`.ok` the counter RESETS to 0; the failure arm is identical to `main.py`'s
(`.exc` stands for the caught `EmailConnectionError`/`EmailProcessingError`;
any other exception would escape this loop to `start()`). -/
def appLoopStep (checkInterval maxRetry retry : Nat) :
    SessionOutcome → Nat × List RunEvent
  | .ok => (0, [])
  | .exc =>
    let r := retry + 1
    if maxRetry ≤ r then (r, [.attemptFail r, .exitZero])
    else (r, [.attemptFail r, .backoff (checkInterval * 2 ^ (r - 1))])

/-- `main()`'s retry loop over a finite list of session outcomes: checks
`retry < max` before each attempt, stops at `sys.exit(0)`.  Returns the
final counter and the concatenated event trace. -/
def mainLoopRun (ci mr : Nat) : Nat → List SessionOutcome → Nat × List RunEvent
  | retry, [] => (retry, [])
  | retry, o :: rest =>
    if mr ≤ retry then (retry, [])
    else
      let (r', evs) := mainLoopStep ci mr retry o
      if evs.contains .exitZero then (r', evs)
      else
        let (rf, evsf) := mainLoopRun ci mr r' rest
        (rf, evs ++ evsf)

/-- `_run_main_loop`'s retry loop over a finite list of session outcomes. -/
def appLoopRun (ci mr : Nat) : Nat → List SessionOutcome → Nat × List RunEvent
  | retry, [] => (retry, [])
  | retry, o :: rest =>
    if mr ≤ retry then (retry, [])
    else
      let (r', evs) := appLoopStep ci mr retry o
      if evs.contains .exitZero then (r', evs)
      else
        let (rf, evsf) := appLoopRun ci mr r' rest
        (rf, evs ++ evsf)

/-! # Theorems -/

/-- C1: the retry counter increases by exactly 1 per failing session attempt
and the process exits with status 0 exactly when it reaches
`MAX_RETRY_ATTEMPTS` — both loops do this (third and fourth conjunct).  But
the reset-to-0 after a session that completes without raising happens only
in `app.py`: after the outcome sequence [failure, clean session], `main.py`
leaves the counter at 1 (first conjunct) where `app.py` returns it to 0
(second conjunct).  `main.py` line 412 carries the comment "reset retry
count" with no assignment, so the script contradicts its own comment. -/
theorem retry_counter_evaluation :
    mainLoopRun CHECK_INTERVAL MAX_RETRY_ATTEMPTS 0 [.exc, .ok] =
      (1, [.attemptFail 1, .backoff 1]) ∧
    appLoopRun CHECK_INTERVAL MAX_RETRY_ATTEMPTS 0 [.exc, .ok] =
      (0, [.attemptFail 1, .backoff 1]) ∧
    mainLoopRun CHECK_INTERVAL MAX_RETRY_ATTEMPTS 0 [.exc, .exc, .exc] =
      (3, [.attemptFail 1, .backoff 1, .attemptFail 2, .backoff 2,
           .attemptFail 3, .exitZero]) ∧
    appLoopRun CHECK_INTERVAL MAX_RETRY_ATTEMPTS 0 [.exc, .exc, .exc] =
      (3, [.attemptFail 1, .backoff 1, .attemptFail 2, .backoff 2,
           .attemptFail 3, .exitZero]) := by decide

/-- C2 counterexample: a session whose poll cycle raises ("boom") is caught
by the inner loop and ends as a NORMAL return (`SessionOutcome.ok`); the
outer loop of `main.py` then leaves the retry counter at 0 — it does not
increment as the claim states (and `app.py` resets it to 0 likewise). -/
theorem poll_failure_not_counted_cex :
    establishSession true [⟨false, .error "boom"⟩] =
      (.ok, [.otherErrorLog, .sleepInterval, .errorBreak]) ∧
    mainLoopRun CHECK_INTERVAL MAX_RETRY_ATTEMPTS 0 [.ok] = (0, []) ∧
    appLoopRun CHECK_INTERVAL MAX_RETRY_ATTEMPTS 0 [.ok] = (0, []) := by decide

/-- C2 amended: on any exception text `e` from the per-cycle poll, the
inner session loop logs once (the keyword test on `e` picks only the
phrasing), sleeps once, breaks, and the session returns normally; the outer
run loop treats that normal return as success — `main.py` keeps the counter
unchanged and `app.py` resets it to 0, so no failed attempt is counted. -/
theorem poll_failure_caught_not_counted (e : String) (rest : List CycleInput)
    (ci mr r : Nat) :
    innerLoop (⟨false, .error e⟩ :: rest) =
      [(if isConnKeyword e then SessEvent.connErrorLog else SessEvent.otherErrorLog),
       .sleepInterval, .errorBreak] ∧
    establishSession true (⟨false, .error e⟩ :: rest) =
      (.ok,
       [(if isConnKeyword e then SessEvent.connErrorLog else SessEvent.otherErrorLog),
        .sleepInterval, .errorBreak]) ∧
    mainLoopStep ci mr r .ok = (r, []) ∧
    appLoopStep ci mr r .ok = (0, []) := by
  refine ⟨rfl, rfl, rfl, rfl⟩

/-- C8: after failed attempt `k` (with `1 ≤ k < max_retry_attempts`), both
retry loops log the attempt and back off for exactly
`base_interval * 2 ^ (k - 1)` seconds before attempt `k + 1`. -/
theorem backoff_formula (ci mr k : Nat) (h1 : 1 ≤ k) (h2 : k < mr) :
    (mainLoopStep ci mr (k - 1) .exc).2 =
      [.attemptFail k, .backoff (ci * 2 ^ (k - 1))] ∧
    (appLoopStep ci mr (k - 1) .exc).2 =
      [.attemptFail k, .backoff (ci * 2 ^ (k - 1))] := by
  have hk : k - 1 + 1 = k := Nat.sub_add_cancel h1
  have hlt : ¬ mr ≤ k := Nat.not_le.mpr h2
  refine ⟨?_, ?_⟩ <;> simp [mainLoopStep, appLoopStep, hk, hlt]

/-- C8 witness: with base interval 3 s and max 4 attempts, failed attempt 2
is followed by a 6-second wait (3 * 2 ^ 1). -/
theorem backoff_formula_witness :
    (mainLoopStep 3 4 (2 - 1) .exc).2 =
      [.attemptFail 2, .backoff (3 * 2 ^ (2 - 1))] ∧
    (appLoopStep 3 4 (2 - 1) .exc).2 =
      [.attemptFail 2, .backoff (3 * 2 ^ (2 - 1))] :=
  backoff_formula 3 4 2 (by decide) (by decide)

/-- A message whose body carries both the "accountaccess" and the
"travel/verify" marker. -/
def twoMarkerMsg : MailMessage :=
  { uid := "7", hasDate := true, dateSeconds := 0, subject := "s",
    flags := [], html := "accountaccess travel/verify", text := "" }

/-- C3 counterexample: in `check_emails` of `src/main.py` the marker rules
are independent `if` blocks, so this message — matched first by the
"accountaccess" rule — is ALSO handled by the "travel/verify" branch
(browser click and a second `mailbox.move`), refuting first-match-wins. -/
theorem dispatch_both_branches_cex :
    mainDispatch 0 ⟨true, true⟩ twoMarkerMsg =
      [.foundLink "accountaccess", .move "7" GELESEN_FOLDER,
       .foundLink "travel/verify", .browse "travel", .move "7" GELESEN_FOLDER] := by
  decide

/-- C3 amended: in `EmailHandler._process_email` the rules ARE evaluated in
the fixed order (age rule, then accountaccess, then travel/verify, then
update-primary-location) with the first match winning, and a message caught
by the age rule undergoes no classification; in `check_emails` of
`src/main.py` the age rule short-circuits too, but the three marker rules
fire independently, so a multi-marker body is handled by every matching
branch (final conjunct). -/
theorem dispatch_order_amended (mtw now : Int) (connected : Bool)
    (scr : Scrapers) (moveRes : Except String Unit)
    (processed : List String) (msg : MailMessage)
    (hnp : processed.contains (emailId msg) = false) :
    (shouldMoveOldEmail mtw now msg = true →
      (processEmail mtw connected now scr moveRes processed msg).2 =
        [.move msg.uid "Email older than 15 minutes AND read"
           (moveEmailToGelesen connected moveRes)]) ∧
    (shouldMoveOldEmail mtw now msg = false →
      strContains (bodyOf msg) "accountaccess" = true →
      (processEmail mtw connected now scr moveRes processed msg).2 =
        processAccountAccessEmail connected moveRes msg.uid (bodyOf msg)) ∧
    (shouldMoveOldEmail mtw now msg = false →
      strContains (bodyOf msg) "accountaccess" = false →
      strContains (bodyOf msg) "travel/verify" = true →
      (processEmail mtw connected now scr moveRes processed msg).2 =
        processTravelVerifyEmail connected scr moveRes msg.uid (bodyOf msg)) ∧
    (shouldMoveOldEmail mtw now msg = false →
      strContains (bodyOf msg) "accountaccess" = false →
      strContains (bodyOf msg) "travel/verify" = false →
      strContains (bodyOf msg) "update-primary-location" = true →
      (processEmail mtw connected now scr moveRes processed msg).2 =
        processUpdateLocationEmail connected scr moveRes msg.uid (bodyOf msg)) ∧
    mainDispatch 0 ⟨false, false⟩
      { uid := "8", hasDate := true, dateSeconds := 0, subject := "s",
        flags := [], html := "travel/verify update-primary-location", text := "" } =
      [.foundLink "travel/verify", .browse "travel",
       .foundLink "update-primary-location", .browse "confirm"] := by
  refine ⟨?_, ?_, ?_, ?_, by decide⟩ <;>
    · intros
      simp_all [processEmail]

/-- C3 witness: the age arm of `dispatch_order_amended` applied to a
concrete old, read message. -/
theorem dispatch_order_amended_witness :
    (processEmail 900 true 1000 ⟨true, true⟩ (.ok ()) []
        { uid := "4", hasDate := true, dateSeconds := 0, subject := "s",
          flags := ["\\Seen"], html := "accountaccess", text := "" }).2 =
      [.move "4" "Email older than 15 minutes AND read"
         (moveEmailToGelesen true (.ok ()))] :=
  (dispatch_order_amended 900 1000 true ⟨true, true⟩ (.ok ()) []
    { uid := "4", hasDate := true, dateSeconds := 0, subject := "s",
      flags := ["\\Seen"], html := "accountaccess", text := "" }
    (by decide)).1 (by decide)

/-- A message whose body holds the bare "accountaccess" marker but not the
full `https://www.netflix.com/accountaccess` URL. -/
def markerNoUrlMsg : MailMessage :=
  { uid := "9", hasDate := true, dateSeconds := 0, subject := "s",
    flags := ["\\Seen"], html := "accountaccess", text := "" }

/-- C4 counterexample: `_process_account_access_email` returns early when
the full URL is absent, performing NO disposition (no archive, no browser
call, no log) — yet `_process_email` adds the fingerprint "9_0_s" anyway:
the trace is empty while the processed set gained the fingerprint. -/
theorem fingerprint_without_disposition_cex :
    processEmail 900 true 0 ⟨true, true⟩ (.ok ()) [] markerNoUrlMsg =
      ([emailId markerNoUrlMsg], []) ∧
    emailId markerNoUrlMsg = "9_0_s" := by decide

/-- C4 amended: during one run, `_process_email` either leaves the
processed set unchanged or pushes exactly the fingerprint of the current,
not-yet-fingerprinted message, and it does the latter precisely when one of
the four dispatch branches ran (age rule or a marker matched) — the branch
may complete without any disposition (full URL absent, or physical move
failed), so membership only certifies that the branch ran to completion. -/
theorem fingerprint_only_after_branch (mtw now : Int) (connected : Bool)
    (scr : Scrapers) (moveRes : Except String Unit)
    (processed : List String) (msg : MailMessage) :
    (processEmail mtw connected now scr moveRes processed msg).1 = processed ∨
    ((processEmail mtw connected now scr moveRes processed msg).1 =
        emailId msg :: processed ∧
      processed.contains (emailId msg) = false ∧
      (shouldMoveOldEmail mtw now msg = true ∨
       strContains (bodyOf msg) "accountaccess" = true ∨
       strContains (bodyOf msg) "travel/verify" = true ∨
       strContains (bodyOf msg) "update-primary-location" = true)) := by
  unfold processEmail
  split_ifs with h1 h2 h3 h4 h5 <;> simp_all

/-- A body holding the full update-primary-location URL (with the closing
quote the extractor needs). -/
def updLocHtml : String :=
  "href=\"https://www.netflix.com/account/update-primary-location\" x"

/-- A fresh update-primary-location message. -/
def updLocMsg : MailMessage :=
  { uid := "5", hasDate := false, dateSeconds := 0, subject := "s",
    flags := [], html := updLocHtml, text := "" }

/-- C5 counterexample: when the confirmation click FAILS
(`confirmOk = false`), `EmailHandler._process_update_location_email` logs
the warning but still archives the message, with reason "Netflix update
location email processed (confirmation failed)" — the message is not left
unarchived as the claim states. -/
theorem update_location_archived_on_failure_cex :
    processEmail 900 true 0 ⟨true, false⟩ (.ok ()) [] updLocMsg =
      (["5"],
       [.foundLink "update-primary-location", .browse "confirm",
        .move "5" "Netflix update location email processed (confirmation failed)"
          .movedOk]) := by decide

/-- C5 amended: both versions extract the URL and delegate the click to the
browser actuator, but the archive-iff-success policy holds only in
`check_emails` of `src/main.py` (its update branch issues the move exactly
when confirmation succeeded); `EmailHandler._process_update_location_email`
emits the warning on failure yet archives the message in both outcomes,
with the reason recording which one occurred. -/
theorem update_location_policy (o : BrowserOracle) (scr : Scrapers)
    (connected : Bool) (moveRes : Except String Unit) (uid html u : String)
    (hm : strContains html "update-primary-location" = true)
    (hu : extractNetflixUrl html
        "https://www.netflix.com/account/update-primary-location" = some u) :
    ((MAction.move uid GELESEN_FOLDER) ∈ mainUpdateBranch o uid html ↔
      o.confirmOk = true) ∧
    (HAction.move uid
        (if scr.confirmOk then "Netflix update location confirmation clicked"
         else "Netflix update location email processed (confirmation failed)")
        (moveEmailToGelesen connected moveRes)) ∈
      processUpdateLocationEmail connected scr moveRes uid html := by
  constructor
  · rcases o with ⟨t, c⟩
    cases c <;> simp [mainUpdateBranch, hm]
  · rcases scr with ⟨t, c⟩
    cases c <;> simp [processUpdateLocationEmail, hu]

/-- C5 witness: `update_location_policy` at the concrete body
`updLocHtml`, a succeeding oracle for `main.py` and a failing confirmation
for the handler. -/
theorem update_location_policy_witness :
    ((MAction.move "5" GELESEN_FOLDER) ∈
        mainUpdateBranch ⟨true, true⟩ "5" updLocHtml ↔ true = true) ∧
    (HAction.move "5"
        "Netflix update location email processed (confirmation failed)"
        (moveEmailToGelesen true (.ok ()))) ∈
      processUpdateLocationEmail true ⟨true, false⟩ (.ok ()) "5" updLocHtml :=
  update_location_policy ⟨true, true⟩ ⟨true, false⟩ true (.ok ()) "5" updLocHtml
    "https://www.netflix.com/account/update-primary-location"
    (by decide) (by decide)

/-- A body holding the full travel/verify URL (with the closing quote the
extractor needs). -/
def travelHtml : String :=
  "href=\"https://www.netflix.com/account/travel/verify\" x"

/-- A fresh travel-verification message. -/
def travelMsg : MailMessage :=
  { uid := "6", hasDate := false, dateSeconds := 0, subject := "s",
    flags := [], html := travelHtml, text := "" }

/-- C6 counterexample: when no code was scraped (`travelCode = false`),
`EmailHandler._process_travel_verify_email` still archives the message,
with reason "Netflix travel verification email processed (no code found)" —
the message is NOT left present for a retry on the next poll. -/
theorem travel_archived_without_code_cex :
    processEmail 900 true 0 ⟨false, true⟩ (.ok ()) [] travelMsg =
      (["6"],
       [.foundLink "travel/verify", .browse "travel",
        .move "6" "Netflix travel verification email processed (no code found)"
          .movedOk]) := by decide

/-- C6 amended: the archive-only-on-scraped-code policy holds only in
`check_emails` of `src/main.py` (its travel branch issues the move exactly
when a code came back, leaving the message for the next poll otherwise);
`EmailHandler._process_travel_verify_email` archives in both outcomes, with
the reason recording whether a code was found. -/
theorem travel_verify_policy (o : BrowserOracle) (scr : Scrapers)
    (connected : Bool) (moveRes : Except String Unit) (uid html u : String)
    (hm : strContains html "travel/verify" = true)
    (hu : extractNetflixUrl html
        "https://www.netflix.com/account/travel/verify" = some u) :
    ((MAction.move uid GELESEN_FOLDER) ∈ mainTravelBranch o uid html ↔
      o.travelCodeOk = true) ∧
    (HAction.move uid
        (if scr.travelCode then "Netflix travel verification code extracted"
         else "Netflix travel verification email processed (no code found)")
        (moveEmailToGelesen connected moveRes)) ∈
      processTravelVerifyEmail connected scr moveRes uid html := by
  constructor
  · rcases o with ⟨t, c⟩
    cases t <;> simp [mainTravelBranch, hm]
  · rcases scr with ⟨t, c⟩
    cases t <;> simp [processTravelVerifyEmail, hu]

/-- C6 witness: `travel_verify_policy` at the concrete body `travelHtml`,
a failing code scrape on both sides. -/
theorem travel_verify_policy_witness :
    ((MAction.move "6" GELESEN_FOLDER) ∈
        mainTravelBranch ⟨false, true⟩ "6" travelHtml ↔ false = true) ∧
    (HAction.move "6"
        "Netflix travel verification email processed (no code found)"
        (moveEmailToGelesen true (.ok ()))) ∈
      processTravelVerifyEmail true ⟨false, true⟩ (.ok ()) "6" travelHtml :=
  travel_verify_policy ⟨false, true⟩ ⟨false, true⟩ true (.ok ()) "6" travelHtml
    "https://www.netflix.com/account/travel/verify"
    (by decide) (by decide)

/-- C7: a dated message older than the threshold (900 s in `src/main.py`,
`minutes_to_wait` in the handler) whose flags include `\Seen` is archived
with the age reason and nothing else happens to it — no marker
classification, no browser call — whatever its body holds.  The handler
side additionally assumes the message has not been fingerprinted yet (the
dedup check precedes the age rule). -/
theorem age_rule_archives_unclassified (mtw now : Int) (o : BrowserOracle)
    (scr : Scrapers) (connected : Bool) (moveRes : Except String Unit)
    (processed : List String) (msg : MailMessage)
    (hdate : msg.hasDate = true)
    (hseen : "\\Seen" ∈ msg.flags)
    (hold1 : now - msg.dateSeconds > MINUTES_TO_WAIT)
    (hold2 : now - msg.dateSeconds > mtw)
    (hnp : processed.contains (emailId msg) = false) :
    mainDispatch now o msg = [.move msg.uid GELESEN_FOLDER] ∧
    processEmail mtw connected now scr moveRes processed msg =
      (emailId msg :: processed,
       [.move msg.uid "Email older than 15 minutes AND read"
          (moveEmailToGelesen connected moveRes)]) := by
  have hne : msg.flags ≠ [] := List.ne_nil_of_mem hseen
  have hnp' : emailId msg ∉ processed := by simpa using hnp
  constructor
  · simp [mainDispatch, mainAgeRule, hdate, hold1, hne, hseen]
  · simp [processEmail, hnp, hnp', shouldMoveOldEmail, hdate, hold2, hne, hseen]

/-- C7 witness: an old, read message whose body holds all three markers is
archived by the age rule alone in both versions. -/
theorem age_rule_archives_unclassified_witness :
    mainDispatch 1000 ⟨true, true⟩
      { uid := "2", hasDate := true, dateSeconds := 0, subject := "s",
        flags := ["\\Seen"],
        html := "accountaccess travel/verify update-primary-location",
        text := "" } = [.move "2" GELESEN_FOLDER] ∧
    processEmail 900 true 1000 ⟨true, true⟩ (.ok ()) []
      { uid := "2", hasDate := true, dateSeconds := 0, subject := "s",
        flags := ["\\Seen"],
        html := "accountaccess travel/verify update-primary-location",
        text := "" } =
      (["2_0_s"],
       [.move "2" "Email older than 15 minutes AND read"
          (moveEmailToGelesen true (.ok ()))]) :=
  age_rule_archives_unclassified 900 1000 ⟨true, true⟩ ⟨true, true⟩ true
    (.ok ()) []
    { uid := "2", hasDate := true, dateSeconds := 0, subject := "s",
      flags := ["\\Seen"],
      html := "accountaccess travel/verify update-primary-location",
      text := "" }
    rfl (by decide) (by decide) (by decide) (by decide)

/-- A marker-free message that is old and read. -/
def plainOldMsg : MailMessage :=
  { uid := "3", hasDate := true, dateSeconds := 0, subject := "s",
    flags := ["\\Seen"], html := "hello", text := "" }

/-- C9 counterexample: this message's body holds none of the three markers,
yet the poll pass DOES issue a move and DOES add its fingerprint — the
age-and-read rule fires first.  The claim's universal statement over all
marker-free messages is therefore false. -/
theorem no_marker_still_archived_cex :
    strContains (bodyOf plainOldMsg) "accountaccess" = false ∧
    strContains (bodyOf plainOldMsg) "travel/verify" = false ∧
    strContains (bodyOf plainOldMsg) "update-primary-location" = false ∧
    mainDispatch 1000 ⟨true, true⟩ plainOldMsg = [.move "3" GELESEN_FOLDER] ∧
    processEmail 900 true 1000 ⟨true, true⟩ (.ok ()) [] plainOldMsg =
      (["3_0_s"],
       [.move "3" "Email older than 15 minutes AND read" .movedOk]) := by decide

/-- C9 amended: a fetched message whose body holds none of the three
markers AND to which the age-and-read rule does not apply is left exactly
in place: `check_emails` issues no action at all for it, and
`_process_email` returns the processed set unchanged with an empty trace. -/
theorem no_marker_untouched (mtw now : Int) (o : BrowserOracle)
    (scr : Scrapers) (connected : Bool) (moveRes : Except String Unit)
    (processed : List String) (msg : MailMessage)
    (hna : strContains (bodyOf msg) "accountaccess" = false)
    (hnt : strContains (bodyOf msg) "travel/verify" = false)
    (hnu : strContains (bodyOf msg) "update-primary-location" = false)
    (hage1 : mainAgeRule now msg = false)
    (hage2 : shouldMoveOldEmail mtw now msg = false) :
    mainDispatch now o msg = [] ∧
    processEmail mtw connected now scr moveRes processed msg =
      (processed, []) := by
  constructor
  · simp [mainDispatch, hage1, mainAccountBranch, hna, mainTravelBranch, hnt,
      mainUpdateBranch, hnu]
  · unfold processEmail
    split_ifs with h1 <;> simp_all

/-- C9 witness: `no_marker_untouched` on a fresh, recent, marker-free
message. -/
theorem no_marker_untouched_witness :
    mainDispatch 0 ⟨true, true⟩
      { uid := "1", hasDate := true, dateSeconds := 0, subject := "s",
        flags := [], html := "hello", text := "" } = [] ∧
    processEmail 900 true 0 ⟨true, true⟩ (.ok ()) []
      { uid := "1", hasDate := true, dateSeconds := 0, subject := "s",
        flags := [], html := "hello", text := "" } = ([], []) :=
  no_marker_untouched 900 0 ⟨true, true⟩ ⟨true, true⟩ true (.ok ()) []
    { uid := "1", hasDate := true, dateSeconds := 0, subject := "s",
      flags := [], html := "hello", text := "" }
    (by decide) (by decide) (by decide) (by decide) (by decide)

/-- C10: `_move_email_to_gelesen` is total over every outcome of the
underlying `mailbox.move` (the Python function catches every exception):
a failure whose lowered text holds "already moved" or "not found" is
logged with success status, any other failure with failure status; and
whatever the move outcome `moveRes` was, the dispatching branch still adds
the fingerprint, so the same message is skipped (empty trace, unchanged
set) on every later poll until the processed set is cleared. -/
theorem move_failure_swallowed_and_skipped (e : String) (mtw now : Int)
    (scr : Scrapers) (connected : Bool) (moveRes : Except String Unit)
    (processed : List String) (msg : MailMessage)
    (hnp : processed.contains (emailId msg) = false)
    (hbr : shouldMoveOldEmail mtw now msg = true ∨
           strContains (bodyOf msg) "accountaccess" = true ∨
           strContains (bodyOf msg) "travel/verify" = true ∨
           strContains (bodyOf msg) "update-primary-location" = true) :
    ((strContains (lowerStr e) "already moved"
        || strContains (lowerStr e) "not found") = true →
      moveEmailToGelesen true (.error e) = .alreadyGoneOk ∧
      (moveEmailToGelesen true (.error e)).successStatus = true) ∧
    ((strContains (lowerStr e) "already moved"
        || strContains (lowerStr e) "not found") = false →
      moveEmailToGelesen true (.error e) = .moveFailed ∧
      (moveEmailToGelesen true (.error e)).successStatus = false) ∧
    (processEmail mtw connected now scr moveRes processed msg).1 =
      emailId msg :: processed ∧
    processEmail mtw connected now scr moveRes
        (emailId msg :: processed) msg =
      (emailId msg :: processed, []) := by
  refine ⟨?_, ?_, ?_, ?_⟩
  · intro h
    simp [moveEmailToGelesen, h, MoveLog.successStatus]
  · intro h
    simp [moveEmailToGelesen, h, MoveLog.successStatus]
  · rcases hbr with h | h | h | h <;> unfold processEmail <;>
      split_ifs <;> simp_all
  · unfold processEmail
    rw [if_pos]
    simp

/-- C10 witness: an old, read message whose move raised "UID Not Found":
the failure is classified as already-gone (success log), the fingerprint is
added anyway, and the next poll skips the message. -/
theorem move_failure_swallowed_and_skipped_witness :
    ((strContains (lowerStr "UID Not Found") "already moved"
        || strContains (lowerStr "UID Not Found") "not found") = true →
      moveEmailToGelesen true (.error "UID Not Found") = .alreadyGoneOk ∧
      (moveEmailToGelesen true (.error "UID Not Found")).successStatus = true) ∧
    ((strContains (lowerStr "UID Not Found") "already moved"
        || strContains (lowerStr "UID Not Found") "not found") = false →
      moveEmailToGelesen true (.error "UID Not Found") = .moveFailed ∧
      (moveEmailToGelesen true (.error "UID Not Found")).successStatus = false) ∧
    (processEmail 900 true 1000 ⟨true, true⟩ (.error "UID Not Found") []
        plainOldMsg).1 = emailId plainOldMsg :: [] ∧
    processEmail 900 true 1000 ⟨true, true⟩ (.error "UID Not Found")
        (emailId plainOldMsg :: []) plainOldMsg =
      (emailId plainOldMsg :: [], []) :=
  move_failure_swallowed_and_skipped "UID Not Found" 900 1000 ⟨true, true⟩
    true (.error "UID Not Found") [] plainOldMsg
    (by decide) (Or.inl (by decide))

end VerifyBot
